import Mathlib

/-!
Verification of the breachline rate-limiting and validation contract.

The repository ships black-box test scripts (src/scripts/test_rate_limits.py)
and license fixture generators (src/scripts/generate_keys.py,
src/scripts/generate_bad_license.py).  The rate-limiting / validation core
itself (rate_limits.go, request_validator.go referenced by the test script's
comments) is not part of the repository, so the core's components are
modelled from the specification; the constants (RATE_LIMITS,
VALIDATION_LIMITS, RATE_LIMIT_WINDOW_SECONDS) and the fixture generators are
translated from the source files.
-/

namespace Breachline

/-- The fixed category set, from the keys of RATE_LIMITS in
src/scripts/test_rate_limits.py lines 39-44 and spec section 3. -/
inductive Category where
  | workspaces
  | files
  | annotationCat
  | auth
deriving DecidableEq, Repr

/-- Per-minute limits, from RATE_LIMITS in src/scripts/test_rate_limits.py
lines 39-44: workspaces 10, files 100, annotations 1000, auth 5. -/
def RATE_LIMITS : Category → Nat
  | .workspaces => 10
  | .files => 100
  | .annotationCat => 1000
  | .auth => 5

/-- RATE_LIMIT_WINDOW_SECONDS = 60, src/scripts/test_rate_limits.py line 45. -/
def RATE_LIMIT_WINDOW_SECONDS : Nat := 60

/-- Modelled from the spec: CounterEntry key, section 3 — a counter is
identified by (tenant_key, category, window_id). -/
structure CounterKey where
  tenant : String
  category : Category
  windowId : Nat
deriving DecidableEq

/-- Modelled from the spec: the Counter Store (section 4.1), a key-to-count
map; absent keys (and expired windows) read as zero. -/
abbrev Store := CounterKey → Nat

/-- The store with no entries. -/
def Store.empty : Store := fun _ => 0

/-- Modelled from the spec: atomic increment_and_get (section 4.1) —
returns the updated store and the post-increment count. -/
def incrementAndGet (s : Store) (k : CounterKey) : Store × Nat :=
  let c := s k + 1
  (fun k2 => if k2 = k then c else s k2, c)

/-- Modelled from the spec: StoreUnavailable condition (section 4.1). -/
inductive StoreError where
  | storeUnavailable
deriving DecidableEq, Repr

/-- Modelled from the spec: increment_and_get against a store that may be
unreachable — an unreachable store fails with StoreUnavailable and never
returns a count (section 4.1). -/
def incrementAndGetAvail (avail : Bool) (s : Store) (k : CounterKey) :
    Except StoreError (Store × Nat) :=
  if avail then .ok (incrementAndGet s k) else .error .storeUnavailable

/-- Modelled from the spec: TenantIdentity (section 3) — opaque tenant key
and a license validity flag, produced by the upstream verifier. -/
structure TenantIdentity where
  tenantKey : String
  licenseValid : Bool
deriving DecidableEq

/-- Modelled from the spec: QuotaSet (section 4.2) maps each Category to a
per-minute limit. -/
abbrev QuotaSet := Category → Nat

/-- Modelled from the spec: the Quota Resolver (section 4.2) — an invalid
license resolves to limit 0 for every category; a valid one to the static
configuration. Pure: a function of the identity alone, no store argument. -/
def resolve (t : TenantIdentity) : QuotaSet :=
  if t.licenseValid then RATE_LIMITS else fun _ => 0

/-- Modelled from the spec: RateDecision (section 3). -/
structure RateDecision where
  allowed : Bool
  limit : Nat
  remaining : Nat
  reset_at : Nat
deriving DecidableEq, Repr, Inhabited

/-- Modelled from the spec: window id is floor(now / 60s) (section 3). -/
def windowIdOf (now : Nat) : Nat := now / RATE_LIMIT_WINDOW_SECONDS

/-- The counter key touched by a request at time now. -/
def keyOf (tenant : String) (c : Category) (now : Nat) : CounterKey :=
  ⟨tenant, c, windowIdOf now⟩

/-- Modelled from the spec: the RateDecision built from a post-increment
count k (section 3): allowed iff k is at most the limit, remaining is the
truncated difference, reset_at is the window end. -/
def decisionFor (q : QuotaSet) (c : Category) (now k : Nat) : RateDecision :=
  { allowed := decide (k ≤ q c)
    limit := q c
    remaining := q c - k
    reset_at := (windowIdOf now + 1) * RATE_LIMIT_WINDOW_SECONDS }

/-- Modelled from the spec: the Rate Limiter's check (section 4.3) —
increment the counter of the current window, then compare the returned
count with the category's limit. -/
def check (s : Store) (tenant : String) (c : Category) (q : QuotaSet)
    (now : Nat) : Store × RateDecision :=
  let r := incrementAndGet s (keyOf tenant c now)
  (r.1, decisionFor q c now r.2)

/-- n successive checks for the same tenant, category and instant; returns
the final store and the decisions in request order. -/
def runChecks (s : Store) (tenant : String) (c : Category) (q : QuotaSet)
    (now : Nat) : Nat → Store × List RateDecision
  | 0 => (s, [])
  | n + 1 =>
    let r := check s tenant c q now
    let rest := runChecks r.1 tenant c q now n
    (rest.1, r.2 :: rest.2)

/-- The decision of the (i+1)-th request in a fresh window. -/
def nthDecision (tenant : String) (c : Category) (q : QuotaSet) (now i : Nat) :
    RateDecision :=
  ((runChecks Store.empty tenant c q now (i + 1)).2).getD i default

/-- n successive raw increments on one key; returns the final store and the
counts handed to the callers in execution order. -/
def incRun (s : Store) (k : CounterKey) : Nat → Store × List Nat
  | 0 => (s, [])
  | n + 1 =>
    let r := incrementAndGet s k
    let rest := incRun r.1 k n
    (rest.1, r.2 :: rest.2)

section RateLimiterLemmas

theorem incrementAndGet_snd (s : Store) (k : CounterKey) :
    (incrementAndGet s k).2 = s k + 1 := rfl

theorem incrementAndGet_fst_same (s : Store) (k : CounterKey) :
    (incrementAndGet s k).1 k = s k + 1 := by
  simp [incrementAndGet]

theorem incrementAndGet_fst_other (s : Store) (k k2 : CounterKey)
    (h : k2 ≠ k) : (incrementAndGet s k).1 k2 = s k2 := by
  simp [incrementAndGet, h]

theorem check_snd (s : Store) (tenant : String) (c : Category) (q : QuotaSet)
    (now : Nat) :
    (check s tenant c q now).2 = decisionFor q c now (s (keyOf tenant c now) + 1) := rfl

theorem check_fst_same (s : Store) (tenant : String) (c : Category)
    (q : QuotaSet) (now : Nat) :
    (check s tenant c q now).1 (keyOf tenant c now) = s (keyOf tenant c now) + 1 :=
  incrementAndGet_fst_same s _

theorem check_fst_other (s : Store) (tenant : String) (c : Category)
    (q : QuotaSet) (now : Nat) (k2 : CounterKey) (h : k2 ≠ keyOf tenant c now) :
    (check s tenant c q now).1 k2 = s k2 :=
  incrementAndGet_fst_other s _ k2 h

theorem runChecks_fst (tenant : String) (c : Category) (q : QuotaSet)
    (now : Nat) : ∀ (n : Nat) (s : Store) (k2 : CounterKey),
    (runChecks s tenant c q now n).1 k2 =
      if k2 = keyOf tenant c now then s k2 + n else s k2 := by
  intro n
  induction n with
  | zero => intro s k2; simp [runChecks]
  | succ m ih =>
    intro s k2
    show (runChecks (check s tenant c q now).1 tenant c q now m).1 k2 = _
    rw [ih]
    by_cases h : k2 = keyOf tenant c now
    · subst h
      rw [check_fst_same]
      simp [Nat.add_comm, Nat.add_assoc, Nat.add_left_comm]
    · rw [check_fst_other s tenant c q now k2 h]
      simp [h]

theorem runChecks_getD (tenant : String) (c : Category) (q : QuotaSet)
    (now : Nat) : ∀ (n : Nat) (s : Store) (i : Nat), i < n →
    ((runChecks s tenant c q now n).2).getD i default =
      decisionFor q c now (s (keyOf tenant c now) + i + 1) := by
  intro n
  induction n with
  | zero => intro s i hi; omega
  | succ m ih =>
    intro s i hi
    show (((check s tenant c q now).2 ::
      (runChecks (check s tenant c q now).1 tenant c q now m).2).getD i default) = _
    cases i with
    | zero => simp [check_snd]
    | succ j =>
      have hj : j < m := by omega
      simp only [List.getD_cons_succ]
      rw [ih _ j hj, check_fst_same]
      congr 1
      omega

theorem nthDecision_eq (tenant : String) (c : Category) (q : QuotaSet)
    (now i : Nat) :
    nthDecision tenant c q now i = decisionFor q c now (i + 1) := by
  unfold nthDecision
  rw [runChecks_getD tenant c q now (i + 1) Store.empty i (by omega)]
  simp [Store.empty]

theorem runChecks_admitted (tenant : String) (c : Category) (q : QuotaSet)
    (now : Nat) : ∀ (n : Nat) (s : Store),
    (((runChecks s tenant c q now n).2).filter (fun d => d.allowed)).length
      = min n (q c - s (keyOf tenant c now)) := by
  intro n
  induction n with
  | zero => intro s; simp [runChecks]
  | succ m ih =>
    intro s
    show (((check s tenant c q now).2 ::
      (runChecks (check s tenant c q now).1 tenant c q now m).2).filter
        (fun d => d.allowed)).length = _
    have hd : ((check s tenant c q now).2).allowed
        = decide (s (keyOf tenant c now) + 1 ≤ q c) := rfl
    rw [List.filter_cons]
    by_cases h : s (keyOf tenant c now) + 1 ≤ q c
    · simp only [hd, decide_eq_true_eq]
      rw [if_pos h, List.length_cons, ih, check_fst_same]
      omega
    · simp only [hd, decide_eq_true_eq]
      rw [if_neg h, ih, check_fst_same]
      omega

theorem runChecks_rejected (tenant : String) (c : Category) (q : QuotaSet)
    (now : Nat) : ∀ (n : Nat) (s : Store),
    (((runChecks s tenant c q now n).2).filter (fun d => !d.allowed)).length
      = n - min n (q c - s (keyOf tenant c now)) := by
  intro n
  induction n with
  | zero => intro s; simp [runChecks]
  | succ m ih =>
    intro s
    show (((check s tenant c q now).2 ::
      (runChecks (check s tenant c q now).1 tenant c q now m).2).filter
        (fun d => !d.allowed)).length = _
    have hd : ((check s tenant c q now).2).allowed
        = decide (s (keyOf tenant c now) + 1 ≤ q c) := rfl
    rw [List.filter_cons]
    by_cases h : s (keyOf tenant c now) + 1 ≤ q c
    · simp only [hd, Bool.not_eq_true', decide_eq_false_iff_not]
      rw [if_neg (not_not_intro h), ih, check_fst_same]
      omega
    · simp only [hd, Bool.not_eq_true', decide_eq_false_iff_not]
      rw [if_pos h, List.length_cons, ih, check_fst_same]
      omega

theorem incRun_snd (k : CounterKey) : ∀ (n : Nat) (s : Store),
    (incRun s k n).2 = List.range' (s k + 1) n := by
  intro n
  induction n with
  | zero => intro s; simp [incRun]
  | succ m ih =>
    intro s
    show (s k + 1) :: (incRun (incrementAndGet s k).1 k m).2 = _
    rw [List.range'_succ, ih, incrementAndGet_fst_same]

theorem incRun_fst (k : CounterKey) : ∀ (n : Nat) (s : Store),
    (incRun s k n).1 k = s k + n := by
  intro n
  induction n with
  | zero => intro s; simp [incRun]
  | succ m ih =>
    intro s
    show (incRun (incrementAndGet s k).1 k m).1 k = _
    rw [ih, incrementAndGet_fst_same]
    omega

end RateLimiterLemmas

/-- C1: for every tenant, category with resolved limit L and request whose
post-increment window count is k, check returns allowed = (k ≤ L) and
remaining = max(0, L − k), so remaining ≤ limit always; and within one
window the (i+1)-th request for i < L is allowed while the (L+1)-th is
rejected. -/
theorem check_decision_correct (s : Store) (tenant : String) (c : Category)
    (q : QuotaSet) (now i : Nat) (hi : i < q c) :
    ((check s tenant c q now).2.allowed = true
        ↔ s (keyOf tenant c now) + 1 ≤ q c)
    ∧ (check s tenant c q now).2.remaining
        = q c - (s (keyOf tenant c now) + 1)
    ∧ (check s tenant c q now).2.remaining ≤ (check s tenant c q now).2.limit
    ∧ (nthDecision tenant c q now i).allowed = true
    ∧ (nthDecision tenant c q now (q c)).allowed = false := by
  refine ⟨?_, ?_, ?_, ?_, ?_⟩
  · rw [check_snd]; simp [decisionFor]
  · rw [check_snd]; rfl
  · rw [check_snd]; exact Nat.sub_le _ _
  · rw [nthDecision_eq]; simp [decisionFor]; omega
  · rw [nthDecision_eq]; simp [decisionFor]

/-- Witness for C1: a tenant with the auth limit 5, first request of a
fresh window. -/
theorem check_decision_correct_witness :
    0 < RATE_LIMITS Category.auth
    ∧ (((check Store.empty "tenant" Category.auth RATE_LIMITS 0).2.allowed = true
          ↔ Store.empty (keyOf "tenant" Category.auth 0) + 1
              ≤ RATE_LIMITS Category.auth)
       ∧ (check Store.empty "tenant" Category.auth RATE_LIMITS 0).2.remaining
          = RATE_LIMITS Category.auth
              - (Store.empty (keyOf "tenant" Category.auth 0) + 1)
       ∧ (check Store.empty "tenant" Category.auth RATE_LIMITS 0).2.remaining
          ≤ (check Store.empty "tenant" Category.auth RATE_LIMITS 0).2.limit
       ∧ (nthDecision "tenant" Category.auth RATE_LIMITS 0 0).allowed = true
       ∧ (nthDecision "tenant" Category.auth RATE_LIMITS 0
            (RATE_LIMITS Category.auth)).allowed = false) :=
  ⟨by decide,
   check_decision_correct Store.empty "tenant" Category.auth RATE_LIMITS 0 0
     (by decide)⟩

/-- C2: N interleaved atomic increments on one key hand out the counts
1..N exactly once (modelled as the sequential interleaving their atomicity
guarantees) and leave the stored count at N; hence N > L requests in one
window give exactly L admissions and N − L rejections. -/
theorem concurrent_increments_exact (tenant : String) (c : Category)
    (q : QuotaSet) (now n : Nat) (hn : q c < n) :
    (incRun Store.empty (keyOf tenant c now) n).2 = List.range' 1 n
    ∧ (incRun Store.empty (keyOf tenant c now) n).1 (keyOf tenant c now) = n
    ∧ (((runChecks Store.empty tenant c q now n).2).filter
        (fun d => d.allowed)).length = q c
    ∧ (((runChecks Store.empty tenant c q now n).2).filter
        (fun d => !d.allowed)).length = n - q c
    ∧ (runChecks Store.empty tenant c q now n).1 (keyOf tenant c now) = n := by
  refine ⟨?_, ?_, ?_, ?_, ?_⟩
  · rw [incRun_snd]; rfl
  · rw [incRun_fst]; simp [Store.empty]
  · rw [runChecks_admitted]
    show min n (q c - Store.empty (keyOf tenant c now)) = q c
    simp [Store.empty]
    omega
  · rw [runChecks_rejected]
    show n - min n (q c - Store.empty (keyOf tenant c now)) = n - q c
    simp [Store.empty]
    omega
  · rw [runChecks_fst]; simp [Store.empty]

/-- Witness for C2: 7 concurrent requests against the auth limit of 5. -/
theorem concurrent_increments_exact_witness :
    RATE_LIMITS Category.auth < 7
    ∧ ((incRun Store.empty (keyOf "t" Category.auth 0) 7).2 = List.range' 1 7
       ∧ (incRun Store.empty (keyOf "t" Category.auth 0) 7).1
            (keyOf "t" Category.auth 0) = 7
       ∧ (((runChecks Store.empty "t" Category.auth RATE_LIMITS 0 7).2).filter
            (fun d => d.allowed)).length = RATE_LIMITS Category.auth
       ∧ (((runChecks Store.empty "t" Category.auth RATE_LIMITS 0 7).2).filter
            (fun d => !d.allowed)).length = 7 - RATE_LIMITS Category.auth
       ∧ (runChecks Store.empty "t" Category.auth RATE_LIMITS 0 7).1
            (keyOf "t" Category.auth 0) = 7) :=
  ⟨by decide,
   concurrent_increments_exact "t" Category.auth RATE_LIMITS 0 7 (by decide)⟩

/-- C3: an invalid license resolves to limit 0 for every category, and the
rate limiter then rejects every request — the first included, since the
store state is arbitrary — with allowed = false and remaining = 0; resolve
is a pure function of the identity (it takes no store argument). -/
theorem invalid_license_zero_quota (t : TenantIdentity)
    (ht : t.licenseValid = false) (c : Category) (s : Store) (now : Nat) :
    resolve t c = 0
    ∧ (check s t.tenantKey c (resolve t) now).2.allowed = false
    ∧ (check s t.tenantKey c (resolve t) now).2.remaining = 0 := by
  have hq : resolve t c = 0 := by simp [resolve, ht]
  refine ⟨hq, ?_, ?_⟩
  · rw [check_snd]; simp [decisionFor, hq]
  · rw [check_snd]; simp [decisionFor, hq]

/-- Witness for C3: a concrete invalid tenant, empty store, first request. -/
theorem invalid_license_zero_quota_witness :
    (TenantIdentity.mk "bad" false).licenseValid = false
    ∧ (resolve ⟨"bad", false⟩ Category.workspaces = 0
       ∧ (check Store.empty (TenantIdentity.mk "bad" false).tenantKey
            Category.workspaces (resolve ⟨"bad", false⟩) 0).2.allowed = false
       ∧ (check Store.empty (TenantIdentity.mk "bad" false).tenantKey
            Category.workspaces (resolve ⟨"bad", false⟩) 0).2.remaining = 0) :=
  ⟨rfl,
   invalid_license_zero_quota ⟨"bad", false⟩ rfl Category.workspaces
     Store.empty 0⟩

/-- C4: a request's check writes no counter outside the current 60-second
window and its decision reads only the current window's counter; after any
number of requests in window w, the first request of window w + 1 starts
from a logically zero counter, so it is allowed with remaining = L − 1. -/
theorem window_isolation (s : Store) (tenant : String) (c : Category)
    (q : QuotaSet) (now now2 n : Nat)
    (hw : windowIdOf now2 = windowIdOf now + 1) (hL : 1 ≤ q c) :
    (∀ k2 : CounterKey, k2.windowId ≠ windowIdOf now →
        (check s tenant c q now).1 k2 = s k2)
    ∧ (∀ s3 : Store, s3 (keyOf tenant c now) = s (keyOf tenant c now) →
        (check s3 tenant c q now).2 = (check s tenant c q now).2)
    ∧ (check (runChecks Store.empty tenant c q now n).1 tenant c q now2).2.remaining
        = q c - 1
    ∧ (check (runChecks Store.empty tenant c q now n).1 tenant c q now2).2.allowed
        = true := by
  have hkey : keyOf tenant c now2 ≠ keyOf tenant c now := by
    intro h
    have h2 : windowIdOf now2 = windowIdOf now := congrArg CounterKey.windowId h
    omega
  have hzero :
      (runChecks Store.empty tenant c q now n).1 (keyOf tenant c now2) = 0 := by
    rw [runChecks_fst]
    simp [hkey, Store.empty]
  refine ⟨?_, ?_, ?_, ?_⟩
  · intro k2 h
    apply check_fst_other
    intro heq
    exact h (by rw [heq]; rfl)
  · intro s3 h3
    rw [check_snd, check_snd, h3]
  · rw [check_snd, hzero]
    rfl
  · rw [check_snd, hzero]
    simp [decisionFor]
    omega

/-- Witness for C4: seven requests in the window starting at 0, then the
first request of the next window (time 60), against the auth limit 5. -/
theorem window_isolation_witness :
    (windowIdOf 60 = windowIdOf 0 + 1 ∧ 1 ≤ RATE_LIMITS Category.auth)
    ∧ ((∀ k2 : CounterKey, k2.windowId ≠ windowIdOf 0 →
          (check Store.empty "t" Category.auth RATE_LIMITS 0).1 k2
            = Store.empty k2)
       ∧ (∀ s3 : Store,
            s3 (keyOf "t" Category.auth 0)
              = Store.empty (keyOf "t" Category.auth 0) →
            (check s3 "t" Category.auth RATE_LIMITS 0).2
              = (check Store.empty "t" Category.auth RATE_LIMITS 0).2)
       ∧ (check (runChecks Store.empty "t" Category.auth RATE_LIMITS 0 7).1
            "t" Category.auth RATE_LIMITS 60).2.remaining
          = RATE_LIMITS Category.auth - 1
       ∧ (check (runChecks Store.empty "t" Category.auth RATE_LIMITS 0 7).1
            "t" Category.auth RATE_LIMITS 60).2.allowed = true) :=
  ⟨⟨by decide, by decide⟩,
   window_isolation Store.empty "t" Category.auth RATE_LIMITS 0 60 7
     (by decide) (by decide)⟩

/-- A lowercase hexadecimal digit. -/
def isHexLowerChar (c : Char) : Bool :=
  (decide ('0' ≤ c) && decide (c ≤ '9')) || (decide ('a' ≤ c) && decide (c ≤ 'f'))

/-- Modelled from the spec: violation reasons (section 4.4). -/
inductive ViolationReason where
  | missingField
  | sizeExceeded
  | invalidFormat
deriving DecidableEq, Repr

/-- Modelled from the spec: one entry of a ValidationOutcome (section 3). -/
structure Violation where
  fieldName : String
  reason : ViolationReason
  detail : String
deriving DecidableEq, Repr

/-- Modelled from the spec: ValidationRule (section 3) — required flag,
max_length, and an optional lowercase-hex exact-length pattern. -/
structure ValidationRule where
  name : String
  required : Bool
  maxLength : Nat
  hexPattern : Bool
deriving DecidableEq, Repr

/-- Modelled from the spec: the missing-field message (section 4.5). -/
def missingMessage (name : String) : String :=
  "required field " ++ name ++ " is missing"

/-- Modelled from the spec: the size violation message — it carries the
field name, the limit and the actual length (sections 4.4, 4.5). -/
def sizeExceededMessage (name : String) (limit actual : Nat) : String :=
  "field " ++ name ++ " " ++ "exceeds maximum size" ++ " of " ++
    toString limit ++ ", got " ++ toString actual

/-- Modelled from the spec: the invalid-format message (section 4.5). -/
def formatMessage (name : String) : String :=
  "field " ++ name ++ " has invalid hash format"

/-- Modelled from the spec: per-field validation (section 4.4) — missing
check first, then the size bound, then the pattern. -/
def validateField (r : ValidationRule) (value : Option String) :
    List Violation :=
  match value with
  | none =>
    if r.required then [⟨r.name, .missingField, missingMessage r.name⟩] else []
  | some v =>
    if r.required ∧ v = "" then
      [⟨r.name, .missingField, missingMessage r.name⟩]
    else if r.maxLength < v.length then
      [⟨r.name, .sizeExceeded, sizeExceededMessage r.name r.maxLength v.length⟩]
    else if r.hexPattern = true
        ∧ ¬(v.data.all isHexLowerChar = true ∧ v.length = r.maxLength) then
      [⟨r.name, .invalidFormat, formatMessage r.name⟩]
    else []

/-- Modelled from the spec: a payload is validated field by field in the
configured order, collecting all violations (section 4.4). -/
def validateFields (payload : List (ValidationRule × Option String)) :
    List Violation :=
  (payload.map (fun p => validateField p.1 p.2)).flatten

/-- VALIDATION_LIMITS from src/scripts/test_rate_limits.py lines 48-56. -/
def VALIDATION_LIMITS : List (String × Nat) :=
  [("annotation_note", 512), ("annotation_color", 16), ("workspace_name", 64),
   ("file_path", 1024), ("jpath", 512), ("id", 46), ("hash", 64)]

/-- Modelled from the spec: the configured field rules (section 4.4), with
the limits of VALIDATION_LIMITS; the content hash also carries the
lowercase-hexadecimal exact-length pattern. -/
def fieldRules : List ValidationRule :=
  [⟨"annotation_note", true, 512, false⟩,
   ⟨"annotation_color", true, 16, false⟩,
   ⟨"workspace_name", true, 64, false⟩,
   ⟨"file_path", true, 1024, false⟩,
   ⟨"jpath", true, 512, false⟩,
   ⟨"id", true, 46, false⟩,
   ⟨"hash", true, 64, true⟩]

/-- The pattern occurs in s as a contiguous substring. -/
def containsStr (s pat : String) : Prop :=
  ∃ a b : List Char, s.data = a ++ (pat.data ++ b)

/-- Modelled from the spec: the structured error body, shaped as an object
with an error object holding a message (section 6). -/
structure ErrorMessage where
  message : String
deriving DecidableEq, Repr

/-- Modelled from the spec: the error wrapper of the JSON body (section 6). -/
structure ErrorBody where
  error : ErrorMessage
deriving DecidableEq, Repr

/-- Modelled from the spec: an HTTP response at the core's boundary —
status, optional structured error body, and headers (section 6). -/
structure HttpResponse where
  status : Nat
  body : Option ErrorBody
  headers : List (String × String)
deriving DecidableEq, Repr

/-- Modelled from the spec: the human label of a category used in rate
limit messages (section 4.5 and the keyword table of the test script). -/
def categoryLabel : Category → String
  | .workspaces => "workspace"
  | .files => "file"
  | .annotationCat => "annotation"
  | .auth => "authentication"

/-- Modelled from the spec: the 429 message — category label, the word
limit, and a retry-time phrase in seconds (section 4.5). -/
def rateLimitMessage (c : Category) (d : RateDecision) (now : Nat) : String :=
  categoryLabel c ++ " rate " ++ "limit" ++ " exceeded, retry in " ++
    toString (d.reset_at - now) ++ " " ++ "seconds"

/-- Modelled from the spec: the three rate-limit headers taken from the
RateDecision (sections 4.5, 6). -/
def rateLimitHeaders (d : RateDecision) : List (String × String) :=
  [("X-RateLimit-Limit", toString d.limit),
   ("X-RateLimit-Remaining", toString d.remaining),
   ("X-RateLimit-Reset", toString d.reset_at)]

/-- Modelled from the spec: the RateLimited rejection response (section 4.5). -/
def rateLimitedResponse (c : Category) (d : RateDecision) (now : Nat) :
    HttpResponse :=
  ⟨429, some ⟨⟨rateLimitMessage c d now⟩⟩, rateLimitHeaders d⟩

/-- Modelled from the spec: the ValidationFailed rejection response —
HTTP 400 with the violation's message (section 4.5). -/
def validationFailedResponse (vi : Violation) (d : RateDecision) :
    HttpResponse :=
  ⟨400, some ⟨⟨vi.detail⟩⟩, rateLimitHeaders d⟩

/-- Modelled from the spec: the Admitted response still carries the
rate-limit headers (section 4.5). -/
def admittedResponse (d : RateDecision) : HttpResponse :=
  ⟨200, none, rateLimitHeaders d⟩

/-- Modelled from the spec: fail-open versus fail-closed, a configuration
switch (sections 5, 7, 9). -/
inductive FailPolicy where
  | failOpen
  | failClosed
deriving DecidableEq, Repr

/-- Modelled from the spec: the RateLimiterError response — the configured
policy decides admit or reject, and the X-RateLimit-Error diagnostic
header is always attached (sections 4.5, 7). -/
def storeFailResponse (policy : FailPolicy) : HttpResponse :=
  match policy with
  | .failOpen =>
    ⟨200, none, [("X-RateLimit-Error", "counter store unavailable")]⟩
  | .failClosed =>
    ⟨429, some ⟨⟨"rate limiter unavailable"⟩⟩,
      [("X-RateLimit-Error", "counter store unavailable")]⟩

/-- Modelled from the spec: the Admission Pipeline (section 4.5) — resolve
quota, rate-limit check first (incrementing the window counter), then
payload validation only for admitted requests; a store fault yields the
configured fail policy's response. -/
def runPipeline (avail : Bool) (policy : FailPolicy) (s : Store)
    (t : TenantIdentity) (c : Category)
    (payload : List (ValidationRule × Option String)) (now : Nat) :
    Store × HttpResponse :=
  let q := resolve t
  match incrementAndGetAvail avail s (keyOf t.tenantKey c now) with
  | .error _ => (s, storeFailResponse policy)
  | .ok r =>
    let d := decisionFor q c now r.2
    if d.allowed then
      match validateFields payload with
      | [] => (r.1, admittedResponse d)
      | vi :: _ => (r.1, validationFailedResponse vi d)
    else (r.1, rateLimitedResponse c d now)

/-- C5: every configured field accepts a value of exactly max_length
characters (satisfying the field's pattern when one is configured) and
rejects one of max_length + 1 characters with an HTTP 400 whose message
contains the phrase about exceeding the maximum size and the field's
name; the configured limits agree with VALIDATION_LIMITS of the test
script. -/
theorem validation_size_bounds (r : ValidationRule) (hr : r ∈ fieldRules)
    (v w : String) (d : RateDecision) (hv : v.length = r.maxLength)
    (hvhex : r.hexPattern = true → v.data.all isHexLowerChar = true)
    (hw : w.length = r.maxLength + 1) :
    fieldRules.map (fun r2 => (r2.name, r2.maxLength)) = VALIDATION_LIMITS
    ∧ validateField r (some v) = []
    ∧ validateField r (some w) =
        [⟨r.name, .sizeExceeded, sizeExceededMessage r.name r.maxLength w.length⟩]
    ∧ (validationFailedResponse
        ⟨r.name, .sizeExceeded, sizeExceededMessage r.name r.maxLength w.length⟩
        d).status = 400
    ∧ containsStr (sizeExceededMessage r.name r.maxLength w.length)
        "exceeds maximum size"
    ∧ containsStr (sizeExceededMessage r.name r.maxLength w.length) r.name := by
  have hpos : 0 < r.maxLength := by fin_cases hr <;> decide
  have hv0 : v ≠ "" := by
    intro h
    rw [h, show ("" : String).length = 0 from rfl] at hv
    omega
  have hw0 : w ≠ "" := by
    intro h
    rw [h, show ("" : String).length = 0 from rfl] at hw
    omega
  refine ⟨rfl, ?_, ?_, rfl, ?_, ?_⟩
  · have h1 : ¬(r.required = true ∧ v = "") := fun h => hv0 h.2
    have h2 : ¬(r.maxLength < v.length) := by omega
    have h3 : ¬(r.hexPattern = true
        ∧ ¬(v.data.all isHexLowerChar = true ∧ v.length = r.maxLength)) :=
      fun h => h.2 ⟨hvhex h.1, hv⟩
    simp only [validateField]
    rw [if_neg h1, if_neg h2, if_neg h3]
  · have h1 : ¬(r.required = true ∧ w = "") := fun h => hw0 h.2
    have h2 : r.maxLength < w.length := by omega
    simp only [validateField]
    rw [if_neg h1, if_pos h2]
  · refine ⟨"field ".data ++ r.name.data ++ " ".data,
      (" of " ++ toString r.maxLength ++ ", got " ++ toString w.length).data,
      ?_⟩
    simp [sizeExceededMessage, String.data_append, List.append_assoc]
  · refine ⟨"field ".data,
      (" " ++ "exceeds maximum size" ++ " of " ++ toString r.maxLength ++
        ", got " ++ toString w.length).data, ?_⟩
    simp [sizeExceededMessage, String.data_append, List.append_assoc]

/-- Witness for C5: the annotation color field, limit 16, with a value of
16 characters accepted and one of 17 characters rejected. -/
theorem validation_size_bounds_witness :
    ((ValidationRule.mk "annotation_color" true 16 false) ∈ fieldRules
      ∧ ("ffffffffffffffff" : String).length = 16
      ∧ ("#ffffffffffffffff" : String).length = 16 + 1)
    ∧ (fieldRules.map (fun r2 => (r2.name, r2.maxLength)) = VALIDATION_LIMITS
       ∧ validateField ⟨"annotation_color", true, 16, false⟩
           (some "ffffffffffffffff") = []
       ∧ validateField ⟨"annotation_color", true, 16, false⟩
           (some "#ffffffffffffffff") =
          [⟨"annotation_color", .sizeExceeded,
            sizeExceededMessage "annotation_color" 16
              ("#ffffffffffffffff" : String).length⟩]
       ∧ (validationFailedResponse
           ⟨"annotation_color", .sizeExceeded,
             sizeExceededMessage "annotation_color" 16
               ("#ffffffffffffffff" : String).length⟩
           default).status = 400
       ∧ containsStr
           (sizeExceededMessage "annotation_color" 16
             ("#ffffffffffffffff" : String).length)
           "exceeds maximum size"
       ∧ containsStr
           (sizeExceededMessage "annotation_color" 16
             ("#ffffffffffffffff" : String).length)
           "annotation_color") :=
  ⟨⟨by decide, by decide, by decide⟩,
   validation_size_bounds ⟨"annotation_color", true, 16, false⟩ (by decide)
     "ffffffffffffffff" "#ffffffffffffffff" default (by decide)
     (fun h => by simp at h) (by decide)⟩

section PipelineLemmas

theorem runPipeline_ok (policy : FailPolicy) (s : Store) (t : TenantIdentity)
    (c : Category) (payload : List (ValidationRule × Option String))
    (now : Nat) :
    runPipeline true policy s t c payload now =
      (if (decisionFor (resolve t) c now
            (s (keyOf t.tenantKey c now) + 1)).allowed then
        match validateFields payload with
        | [] => ((incrementAndGet s (keyOf t.tenantKey c now)).1,
            admittedResponse (decisionFor (resolve t) c now
              (s (keyOf t.tenantKey c now) + 1)))
        | vi :: _ => ((incrementAndGet s (keyOf t.tenantKey c now)).1,
            validationFailedResponse vi (decisionFor (resolve t) c now
              (s (keyOf t.tenantKey c now) + 1)))
      else ((incrementAndGet s (keyOf t.tenantKey c now)).1,
        rateLimitedResponse c (decisionFor (resolve t) c now
          (s (keyOf t.tenantKey c now) + 1)) now)) := rfl

theorem runPipeline_fst (policy : FailPolicy) (s : Store) (t : TenantIdentity)
    (c : Category) (payload : List (ValidationRule × Option String))
    (now : Nat) :
    (runPipeline true policy s t c payload now).1 (keyOf t.tenantKey c now)
      = s (keyOf t.tenantKey c now) + 1 := by
  rw [runPipeline_ok]
  by_cases hall : (decisionFor (resolve t) c now
      (s (keyOf t.tenantKey c now) + 1)).allowed = true
  · rw [if_pos hall]
    cases hvf : validateFields payload with
    | nil => exact incrementAndGet_fst_same s _
    | cons vi rest => exact incrementAndGet_fst_same s _
  · rw [if_neg hall]
    exact incrementAndGet_fst_same s _

theorem runPipeline_limited (policy : FailPolicy) (s : Store)
    (t : TenantIdentity) (c : Category)
    (payload : List (ValidationRule × Option String)) (now : Nat)
    (h : ¬(s (keyOf t.tenantKey c now) + 1 ≤ resolve t c)) :
    (runPipeline true policy s t c payload now).2
      = rateLimitedResponse c
          (decisionFor (resolve t) c now (s (keyOf t.tenantKey c now) + 1))
          now := by
  rw [runPipeline_ok]
  have hall : (decisionFor (resolve t) c now
      (s (keyOf t.tenantKey c now) + 1)).allowed = false := decide_eq_false h
  rw [if_neg (by simp [hall])]

end PipelineLemmas

/-- C6: a request rejected by the rate limiter gets the 429 response, whose
body is the structured error object and whose message contains the
category's human label, the word limit, and a retry phrase in seconds, with
the three X-RateLimit headers taken from the RateDecision. -/
theorem rate_limited_emission (c : Category) (d : RateDecision) (now : Nat)
    (policy : FailPolicy) (s : Store) (t : TenantIdentity)
    (payload : List (ValidationRule × Option String))
    (h : ¬(s (keyOf t.tenantKey c now) + 1 ≤ resolve t c)) :
    (runPipeline true policy s t c payload now).2
      = rateLimitedResponse c
          (decisionFor (resolve t) c now (s (keyOf t.tenantKey c now) + 1)) now
    ∧ (rateLimitedResponse c d now).status = 429
    ∧ (rateLimitedResponse c d now).body = some ⟨⟨rateLimitMessage c d now⟩⟩
    ∧ containsStr (rateLimitMessage c d now) (categoryLabel c)
    ∧ containsStr (rateLimitMessage c d now) "limit"
    ∧ containsStr (rateLimitMessage c d now) "seconds"
    ∧ (rateLimitedResponse c d now).headers
        = [("X-RateLimit-Limit", toString d.limit),
           ("X-RateLimit-Remaining", toString d.remaining),
           ("X-RateLimit-Reset", toString d.reset_at)] := by
  refine ⟨runPipeline_limited policy s t c payload now h, rfl, rfl,
    ?_, ?_, ?_, rfl⟩
  · refine ⟨[], (" rate " ++ "limit" ++ " exceeded, retry in " ++
      toString (d.reset_at - now) ++ " " ++ "seconds").data, ?_⟩
    simp [rateLimitMessage, String.data_append, List.append_assoc]
  · refine ⟨(categoryLabel c ++ " rate ").data,
      (" exceeded, retry in " ++ toString (d.reset_at - now) ++ " " ++
        "seconds").data, ?_⟩
    simp [rateLimitMessage, String.data_append, List.append_assoc]
  · refine ⟨(categoryLabel c ++ " rate " ++ "limit" ++ " exceeded, retry in "
      ++ toString (d.reset_at - now) ++ " ").data, [], ?_⟩
    simp [rateLimitMessage, String.data_append, List.append_assoc]

/-- Witness for C6: an invalid tenant (limit 0) over the workspaces
category, so the very first request is rejected. -/
theorem rate_limited_emission_witness :
    ¬(Store.empty (keyOf "x" Category.workspaces 0) + 1
        ≤ resolve ⟨"x", false⟩ Category.workspaces)
    ∧ ((runPipeline true FailPolicy.failClosed Store.empty ⟨"x", false⟩
          Category.workspaces [] 0).2
        = rateLimitedResponse Category.workspaces
            (decisionFor (resolve ⟨"x", false⟩) Category.workspaces 0
              (Store.empty (keyOf "x" Category.workspaces 0) + 1)) 0
       ∧ (rateLimitedResponse Category.workspaces default 0).status = 429
       ∧ (rateLimitedResponse Category.workspaces default 0).body
          = some ⟨⟨rateLimitMessage Category.workspaces default 0⟩⟩
       ∧ containsStr (rateLimitMessage Category.workspaces default 0)
          (categoryLabel Category.workspaces)
       ∧ containsStr (rateLimitMessage Category.workspaces default 0) "limit"
       ∧ containsStr (rateLimitMessage Category.workspaces default 0) "seconds"
       ∧ (rateLimitedResponse Category.workspaces default 0).headers
          = [("X-RateLimit-Limit", toString (default : RateDecision).limit),
             ("X-RateLimit-Remaining",
               toString (default : RateDecision).remaining),
             ("X-RateLimit-Reset", toString (default : RateDecision).reset_at)]) :=
  ⟨by decide,
   rate_limited_emission Category.workspaces default 0 FailPolicy.failClosed
     Store.empty ⟨"x", false⟩ [] (by decide)⟩

/-- C7: when the store is unreachable the increment call fails with
StoreUnavailable and never returns a count; the pipeline then answers with
the configured policy's response, which carries the X-RateLimit-Error
diagnostic header under either policy. -/
theorem store_fault_flagged (s : Store) (k : CounterKey) (policy : FailPolicy)
    (t : TenantIdentity) (c : Category)
    (payload : List (ValidationRule × Option String)) (now : Nat)
    (r2 : Store × Nat) :
    incrementAndGetAvail false s k = .error .storeUnavailable
    ∧ incrementAndGetAvail false s k ≠ .ok r2
    ∧ (runPipeline false policy s t c payload now).2 = storeFailResponse policy
    ∧ (∀ p2 : FailPolicy,
        ("X-RateLimit-Error", "counter store unavailable")
          ∈ (storeFailResponse p2).headers) := by
  refine ⟨rfl, ?_, rfl, ?_⟩
  · intro hc
    simp [incrementAndGetAvail] at hc
  · intro p2
    cases p2 <;> simp [storeFailResponse]

/-- Witness for C7: a concrete unreachable-store call and pipeline run. -/
theorem store_fault_flagged_witness :
    incrementAndGetAvail false Store.empty (keyOf "t" Category.files 0)
      = .error .storeUnavailable
    ∧ incrementAndGetAvail false Store.empty (keyOf "t" Category.files 0)
        ≠ .ok (Store.empty, 0)
    ∧ (runPipeline false FailPolicy.failOpen Store.empty ⟨"t", true⟩
        Category.files [] 0).2 = storeFailResponse FailPolicy.failOpen
    ∧ (∀ p2 : FailPolicy,
        ("X-RateLimit-Error", "counter store unavailable")
          ∈ (storeFailResponse p2).headers) :=
  store_fault_flagged Store.empty (keyOf "t" Category.files 0)
    FailPolicy.failOpen ⟨"t", true⟩ Category.files [] 0 (Store.empty, 0)

/-- C8: every checked request increments the window counter regardless of
outcome — unconditionally, for any store state and any payload, malformed
ones included — and the rate-limit check precedes payload validation: a
request over quota is answered 429 whatever its payload, and its response
does not depend on the payload at all. -/
theorem quota_checked_before_validation (policy : FailPolicy) (s : Store)
    (t : TenantIdentity) (c : Category)
    (payload payload2 : List (ValidationRule × Option String)) (now : Nat) :
    (runPipeline true policy s t c payload now).1 (keyOf t.tenantKey c now)
      = s (keyOf t.tenantKey c now) + 1
    ∧ (¬(s (keyOf t.tenantKey c now) + 1 ≤ resolve t c) →
        (runPipeline true policy s t c payload now).2.status = 429
        ∧ (runPipeline true policy s t c payload now).2
            = (runPipeline true policy s t c payload2 now).2) := by
  refine ⟨runPipeline_fst policy s t c payload now, fun h => ⟨?_, ?_⟩⟩
  · rw [runPipeline_limited policy s t c payload now h]
    rfl
  · rw [runPipeline_limited policy s t c payload now h,
      runPipeline_limited policy s t c payload2 now h]

/-- Witness for C8: a valid tenant's under-quota request with a malformed
payload (a required field missing) still consumes quota, and an invalid
tenant's over-quota request with the same malformed payload is answered
429 with a payload-independent response and is still counted. -/
theorem quota_checked_before_validation_witness :
    (runPipeline true FailPolicy.failClosed Store.empty ⟨"v", true⟩
        Category.workspaces [(⟨"workspace_name", true, 64, false⟩, none)] 0).1
        (keyOf "v" Category.workspaces 0)
      = Store.empty (keyOf "v" Category.workspaces 0) + 1
    ∧ ¬(Store.empty (keyOf "x" Category.workspaces 0) + 1
        ≤ resolve ⟨"x", false⟩ Category.workspaces)
    ∧ ((runPipeline true FailPolicy.failClosed Store.empty ⟨"x", false⟩
          Category.workspaces [(⟨"workspace_name", true, 64, false⟩, none)]
          0).2.status = 429
       ∧ (runPipeline true FailPolicy.failClosed Store.empty ⟨"x", false⟩
            Category.workspaces [(⟨"workspace_name", true, 64, false⟩, none)]
            0).2
          = (runPipeline true FailPolicy.failClosed Store.empty ⟨"x", false⟩
              Category.workspaces [] 0).2) :=
  ⟨(quota_checked_before_validation FailPolicy.failClosed Store.empty
      ⟨"v", true⟩ Category.workspaces
      [(⟨"workspace_name", true, 64, false⟩, none)] [] 0).1,
   by decide,
   (quota_checked_before_validation FailPolicy.failClosed Store.empty
      ⟨"x", false⟩ Category.workspaces
      [(⟨"workspace_name", true, 64, false⟩, none)] [] 0).2 (by decide)⟩

/-- The lowercase hexadecimal digit character for d < 16, as Python's hex
formatting produces. -/
def hexDigitChar (d : Nat) : Char :=
  if d < 10 then Char.ofNat ('0'.toNat + d)
  else Char.ofNat ('a'.toNat + (d - 10))

/-- The width-digit zero-padded big-endian lowercase hex rendering of n,
as Python's UUID.hex property produces for width 32. -/
def hexDigits (width : Nat) (n : Nat) : List Char :=
  match width with
  | 0 => []
  | w + 1 => hexDigits w (n / 16) ++ [hexDigitChar (n % 16)]

/-- uuid.uuid4().hex — the 32-character lowercase hex digest of a 128-bit
value, here parametrised by that value. -/
def uuidHex (n : Nat) : String := ⟨hexDigits 32 n⟩

/-- generate_test_hash from src/scripts/test_rate_limits.py lines 220-222:
the concatenation of two uuid4 hex digests, parametrised by the two random
128-bit values. -/
def generate_test_hash (n1 n2 : Nat) : String := uuidHex n1 ++ uuidHex n2

theorem hexDigits_length (width : Nat) : ∀ n : Nat,
    (hexDigits width n).length = width := by
  induction width with
  | zero => intro n; rfl
  | succ w ih =>
    intro n
    show (hexDigits w (n / 16) ++ [hexDigitChar (n % 16)]).length = w + 1
    rw [List.length_append, ih]
    rfl

theorem hexDigitChar_lower (d : Nat) (hd : d < 16) :
    isHexLowerChar (hexDigitChar d) = true := by
  interval_cases d <;> decide

theorem hexDigits_all (width : Nat) : ∀ n : Nat,
    (hexDigits width n).all isHexLowerChar = true := by
  induction width with
  | zero => intro n; rfl
  | succ w ih =>
    intro n
    show (hexDigits w (n / 16) ++ [hexDigitChar (n % 16)]).all isHexLowerChar
      = true
    rw [List.all_append, ih]
    simp [hexDigitChar_lower (n % 16) (Nat.mod_lt n (by omega))]

/-- C9: generate_test_hash returns the concatenation of two 32-character
uuid4 hex digests: exactly 64 characters, each a lowercase hexadecimal
digit, so it satisfies the content-hash rule. -/
theorem generate_test_hash_spec (n1 n2 : Nat) :
    (generate_test_hash n1 n2).length = 64
    ∧ (generate_test_hash n1 n2).data.all isHexLowerChar = true
    ∧ generate_test_hash n1 n2 = uuidHex n1 ++ uuidHex n2
    ∧ (uuidHex n1).length = 32 := by
  have hdata : (generate_test_hash n1 n2).data
      = hexDigits 32 n1 ++ hexDigits 32 n2 := by
    show (uuidHex n1 ++ uuidHex n2).data = _
    rw [String.data_append]
    rfl
  refine ⟨?_, ?_, rfl, ?_⟩
  · show (generate_test_hash n1 n2).data.length = 64
    rw [hdata, List.length_append, hexDigits_length, hexDigits_length]
  · rw [hdata, List.all_append, hexDigits_all, hexDigits_all]
    rfl
  · show (hexDigits 32 n1).length = 32
    exact hexDigits_length 32 n1

/-- A decoded license payload's time claims, from the JWT payload dicts of
the generator scripts. -/
structure LicensePayload where
  iat : Int
  nbf : Int
  exp : Int
deriving DecidableEq, Repr

/-- generate_license, src/scripts/generate_keys.py lines 99-105: iat and
nbf are now, exp is the end of the current year (eoy). -/
def generate_license_payload (now eoy : Int) : LicensePayload :=
  ⟨now, now, eoy⟩

/-- generate_expired_license, src/scripts/generate_bad_license.py lines
60-66: iat and nbf are one year ago (365 days), exp is yesterday. -/
def generate_expired_payload (now : Int) : LicensePayload :=
  ⟨now - 365 * 86400, now - 365 * 86400, now - 86400⟩

/-- generate_notbefore_license, src/scripts/generate_bad_license.py lines
97-103: iat is now, nbf one hour later, exp tomorrow. -/
def generate_notbefore_payload (now : Int) : LicensePayload :=
  ⟨now, now + 3600, now + 86400⟩

/-- generate_wrongsign_license, src/scripts/generate_bad_license.py lines
137-143: the same claims as a valid license (iat = nbf = now, exp = end of
year); only the signing key differs. -/
def generate_wrongsign_payload (now eoy : Int) : LicensePayload :=
  ⟨now, now, eoy⟩

/-- The claim ordering: issued-at at or before not-before, not-before at
or before expiry. -/
def LicensePayload.wellOrdered (p : LicensePayload) : Prop :=
  p.iat ≤ p.nbf ∧ p.nbf ≤ p.exp

/-- C10: all four fixture generators produce payloads with
iat ≤ nbf ≤ exp; the hypothesis now ≤ eoy records that the end of the
current year is never before the current instant. -/
theorem license_fixtures_ordered (now eoy : Int) (h : now ≤ eoy) :
    (generate_license_payload now eoy).wellOrdered
    ∧ (generate_expired_payload now).wellOrdered
    ∧ (generate_notbefore_payload now).wellOrdered
    ∧ (generate_wrongsign_payload now eoy).wellOrdered := by
  refine ⟨⟨le_refl now, h⟩,
    ⟨le_refl _, show now - 365 * 86400 ≤ now - 86400 by omega⟩,
    ⟨show now ≤ now + 3600 by omega, show now + 3600 ≤ now + 86400 by omega⟩,
    ⟨le_refl now, h⟩⟩

/-- Witness for C10 at now = 0, eoy = 10000. -/
theorem license_fixtures_ordered_witness :
    (0 : Int) ≤ 10000
    ∧ ((generate_license_payload 0 10000).wellOrdered
       ∧ (generate_expired_payload 0).wellOrdered
       ∧ (generate_notbefore_payload 0).wellOrdered
       ∧ (generate_wrongsign_payload 0 10000).wellOrdered) :=
  ⟨by decide, license_fixtures_ordered 0 10000 (by decide)⟩

end Breachline
